import Mathlib

/-!
Shallow embedding of the pydst client library (src/pydst/pydst.py,
src/pydst/utils.py, src/pydst/validators.py).

Modelling conventions:
* Python runtime values that flow through `isinstance` checks and truthiness
  tests are embedded as the inductive type `PyVal`.
* A Python function that can raise is embedded as `Except String _`; the
  string is the message class of the raised exception.
* Query dictionaries are ordered association lists, matching the insertion
  order of Python 3.7+ dicts.
* `os.path.join(i, '')` on a POSIX system appends a trailing slash unless the
  string already ends in one or is empty; it is embedded as `joinSlash`.
* The cerberus `regex` rule appends a trailing anchor and matches from the
  start, so the patterns `[0-9]+` / `[a-zA-Z]+` accept exactly the non-empty
  digit-only / ASCII-letter-only strings.  (Python's dollar anchor also
  matches before a single trailing newline; no claim exercises that corner,
  and it is not modelled.)
-/

namespace Pydst

/-- Embedded Python runtime values, covering the types the pydst argument
checks distinguish. -/
inductive PyVal : Type where
  | pyNone : PyVal
  | pyBool (b : Bool) : PyVal
  | pyInt (n : Int) : PyVal
  | pyStr (s : String) : PyVal
  | pyList (xs : List PyVal) : PyVal

namespace PyVal

/-- `isinstance(v, str)` -/
def isStr : PyVal → Bool
  | pyStr _ => true
  | _ => false

/-- `isinstance(v, list)` -/
def isList : PyVal → Bool
  | pyList _ => true
  | _ => false

/-- `isinstance(v, type(None))` -/
def isNone : PyVal → Bool
  | pyNone => true
  | _ => false

/-- `isinstance(v, bool)` -/
def isBool : PyVal → Bool
  | pyBool _ => true
  | _ => false

/-- Python truthiness of an embedded value (`if v:`). -/
def pyTruthy : PyVal → Bool
  | pyNone => false
  | pyBool b => b
  | pyInt n => n != 0
  | pyStr s => s != ""
  | pyList xs => !xs.isEmpty

/-- Python equality test `v == True`.  Python's `bool` is a subclass of
`int` and `True` equals the integer `1`, so `1 == True` holds. -/
def pyEqTrue : PyVal → Bool
  | pyBool b => b
  | pyInt n => n == 1
  | _ => false

end PyVal

/-- `','.join(xs)` over a Python list: succeeds with the comma-joined string
when every element is a `str`, raises `TypeError` otherwise. -/
def pyJoinComma : List PyVal → Except String String
  | xs => do
    let strs ← xs.mapM fun v =>
      match v with
      | .pyStr s => Except.ok s
      | _ => Except.error "TypeError: sequence item is not a str"
    return String.intercalate "," strs

/-- Whether an `Except` result is an error (a raised Python exception). -/
def exceptIsError {ε α : Type} : Except ε α → Bool
  | .error _ => true
  | .ok _ => false

/-! ## utils.construct_url and its helper -/

/-- Value of one entry of the query dict passed to `construct_url`:
a string, a list of strings, or `None`. -/
inductive QVal : Type where
  | qStr (s : String) : QVal
  | qList (xs : List String) : QVal
  | qNone : QVal
deriving DecidableEq, Repr

/-- utils.flatten_list_to_string_in_dict_remove_none: keeps entries whose
value is not `None`, leaves strings as they are and comma-joins lists. -/
def flatten_list_to_string_in_dict_remove_none
    (d : List (String × QVal)) : List (String × String) :=
  d.filterMap fun kv =>
    match kv.2 with
    | .qStr s => some (kv.1, s)
    | .qList xs => some (kv.1, String.intercalate "," xs)
    | .qNone => none

/-- `os.path.join(i, '')` on POSIX: appends a slash unless the string is
empty or already ends with a slash. -/
def joinSlash (s : String) : String :=
  if s = "" then "" else
  if s.data.getLast? = some '/' then s else s ++ "/"

/-- `s.strip('/')`: removes all leading and trailing slash characters. -/
def stripSlashes (s : String) : String :=
  String.mk (((s.data.dropWhile (· = '/')).reverse.dropWhile (· = '/')).reverse)

/-- `s.replace("\\", "/")`: the pattern is a single character, so this is a
character-wise substitution of every backslash by a slash. -/
def replaceBackslash (s : String) : String :=
  String.mk (s.data.map fun c => if c = '\\' then '/' else c)

/-- utils.construct_url: joins base/version/app/path with single slashes,
then appends the query string built from the dict in insertion order. -/
def construct_url (base version app path : String)
    (query : List (String × QVal)) : String :=
  let url_without_query :=
    String.join (([base, version, app, path]).map joinSlash)
  let q := flatten_list_to_string_in_dict_remove_none query
  let query_str :=
    String.intercalate "&" (q.map fun kv => kv.1 ++ "=" ++ kv.2)
  stripSlashes (replaceBackslash url_without_query) ++ "?" ++ query_str

end Pydst

namespace Pydst

/-! ## validators -/

/-- Full match of the cerberus pattern for letters: non-empty, ASCII letters
only. -/
def isAlphaOnly (s : String) : Bool :=
  s != "" && s.data.all Char.isAlpha

/-- Full match of the cerberus pattern for digits: non-empty, ASCII digits
only. -/
def isDigitsOnly (s : String) : Bool :=
  s != "" && s.data.all Char.isDigit

/-- validators.lang_validator, specialised to string-typed `lang` and a
string-list `valid_langs` (the only shapes reached from the client; cerberus
rejects every non-string `lang` with the same `ValueError`).  First the
cerberus schema check (letters-only strings), then the membership check. -/
def lang_validator (lang : String) (valid_langs : List String) :
    Except String Unit := do
  if !(isAlphaOnly lang && valid_langs.all isAlphaOnly) then
    throw "ValueError: The following arguments is not provided correctly"
  if lang ∈ valid_langs then
    return ()
  else
    throw ("ValueError: " ++ lang ++ " is not in the valid languages")

/-- validators.subject_validator: the cerberus `anyof` accepts a digits-only
string or a list of digits-only strings; anything else raises `ValueError`. -/
def subject_validator (subjects : PyVal) : Except String Unit :=
  let ok :=
    match subjects with
    | .pyStr s => isDigitsOnly s
    | .pyList xs =>
        xs.all fun v =>
          match v with
          | .pyStr s => isDigitsOnly s
          | _ => false
    | _ => false
  if ok then Except.ok ()
  else Except.error "ValueError: The following arguments is not provided correctly"

/-! ## utils.check_lang / utils.assign_lang -/

/-- utils.check_lang: validates against {da, en} and returns `lang`
unchanged. -/
def check_lang (lang : String) : Except String String := do
  lang_validator lang ["da", "en"]
  return lang

/-- The Dst client object: a validated default language plus the fixed
endpoint pieces set in `Dst.__init__`. -/
structure Dst : Type where
  lang : String
  base_url : String
  version : String
deriving DecidableEq, Repr

/-- Dst.__init__: validates the language immediately, so an invalid default
fails at construction time. -/
def Dst.init (lang : String) : Except String Dst := do
  let l ← check_lang lang
  return { lang := l, base_url := "https://api.statbank.dk", version := "v1" }

/-- The per-call language override as passed from Python: `None` or a
string. -/
def langTruthy : Option String → Bool
  | none => false
  | some s => s != ""

/-- utils.assign_lang: uses the override when it is truthy, otherwise
validates and uses the client's stored language. -/
def assign_lang (self : Dst) (lang : Option String) : Except String String :=
  if langTruthy lang then check_lang (lang.getD "") else check_lang self.lang

/-- The client constructed by `Dst()` / `Dst('en')`. -/
def dstEn : Dst :=
  { lang := "en", base_url := "https://api.statbank.dk", version := "v1" }

/-! ## Dst.get_subjects up to the GET

The operation is pure until the single `requests.get(url)`, so it is
embedded as the computation of the requested URL: `Except.error` means an
exception was raised before any HTTP request, `Except.ok url` means the one
GET targets `url`. -/

/-- Dst.get_subjects: resolves the language, type-checks and validates the
`subjects` argument, builds the query dict {lang, format=JSON} and the URL.
The source passes the empty string as the `path` argument of
`construct_url`, so the validated filter never reaches the URL. -/
def get_subjects_url (self : Dst) (subjects : PyVal) (lang : Option String) :
    Except String String := do
  let l ← assign_lang self lang
  if !(subjects.isStr || subjects.isList || subjects.isNone) then
    throw "ValueError: Subjects must be a list or a string of subject ids"
  if subjects.isStr || subjects.isList then
    subject_validator subjects
  let query_dict := [("lang", QVal.qStr l), ("format", QVal.qStr "JSON")]
  return construct_url self.base_url self.version "subjects" "" query_dict

/-! ## Dst.get_tables up to the GET -/

/-- The first half of Dst.get_tables: language resolution and the
`subjects` branch.  `if not subjects:` comes first, so any falsy value is
treated like an absent filter; a truthy non-str non-list raises. -/
def tables_url_pre (self : Dst) (subjects : PyVal) (lang : Option String) :
    Except String String := do
  let l ← assign_lang self lang
  let base_url := "http://api.statbank.dk/v1/tables"
  if !subjects.pyTruthy then
    return base_url ++ "?lang=" ++ l
  else
    match subjects with
    | .pyStr s => return base_url ++ "?lang=" ++ l ++ "&subjects=" ++ s
    | .pyList xs => do
        let sub_str ← pyJoinComma xs
        return base_url ++ "?lang=" ++ l ++ "&subjects=" ++ sub_str
    | _ => throw "ValueError: Subjects must be a list or a string of subject ids"

/-- Dst.get_tables: after the subjects branch, the inactive-tables flag is
compared with `== True` first; only a value that is neither equal to `True`
nor a `bool` raises. -/
def get_tables_url (self : Dst) (subjects : PyVal) (inactive_tables : PyVal)
    (lang : Option String) : Except String String := do
  let tab_url ← tables_url_pre self subjects lang
  if inactive_tables.pyEqTrue then
    return tab_url ++ "&includeInactive=true"
  else if !inactive_tables.isBool then
    throw "ValueError: include_inactive must be bool"
  else
    return tab_url

/-! ## utils.bad_request_wrapper -/

/-- A JSON value, as produced by `response.json()`. -/
inductive JVal : Type where
  | jNull : JVal
  | jBool (b : Bool) : JVal
  | jNum (n : Int) : JVal
  | jStr (s : String) : JVal
  | jArr (xs : List JVal) : JVal
  | jObj (fields : List (String × JVal)) : JVal

/-- Python truthiness of a decoded JSON value, used by the
`and` test on `r.json().get(...)`. -/
def jTruthy : JVal → Bool
  | .jNull => false
  | .jBool b => b
  | .jNum n => n != 0
  | .jStr s => s != ""
  | .jArr xs => !xs.isEmpty
  | .jObj fields => !fields.isEmpty

/-- `obj.get(key, None)`: first binding of `key`, or `None`. -/
def jGet (fields : List (String × JVal)) (key : String) : JVal :=
  match fields.lookup key with
  | some v => v
  | none => .jNull

/-- An HTTP response as seen by the wrapper: `ok` is `status_code < 400`,
`reason` is the transport-level default reason, and `body` is the result of
attempting to decode the body as JSON (`none` when the body is empty or not
JSON-decodable, in which case `r.json()` raises). -/
structure HResp : Type where
  ok : Bool
  status_code : Nat
  reason : String
  body : Option JVal

/-- Outcome of utils.bad_request_wrapper: it either returns normally,
raises `requests.HTTPError` carrying a reason and the status code, lets the
JSON decode error from `r.json()` propagate, or hits `AttributeError` when the
decoded body is not an object. -/
inductive WrapResult : Type where
  | noEffect : WrapResult
  | httpError (reason : JVal) (status : Nat) : WrapResult
  | jsonDecodeError : WrapResult
  | attributeError : WrapResult

/-- utils.bad_request_wrapper: on a failing status it calls `r.json()`
(raising a decode error on a non-JSON body); when the decoded object has
truthy `errorTypeCode` and `message` entries the reason is replaced by the
message before `raise_for_status`, otherwise the default reason is kept. -/
def bad_request_wrapper (r : HResp) : WrapResult :=
  if r.ok then .noEffect
  else
    match r.body with
    | none => .jsonDecodeError
    | some (.jObj fields) =>
        if jTruthy (jGet fields "errorTypeCode") && jTruthy (jGet fields "message") then
          .httpError (jGet fields "message") r.status_code
        else
          .httpError (.jStr r.reason) r.status_code
    | some _ => .attributeError

/-! ## utils.desc_to_df -/

/-- A subject node of the JSON subject tree.  `node` carries the value of
the `subjects` key (a list, possibly empty); `nodeNoKey` is a node whose
dict has no `subjects` key at all, on which the source's `i['subjects']`
raises `KeyError`. -/
inductive Subject : Type where
  | node (id description : String) (active hasSubjects : Bool)
      (subjects : List Subject) : Subject
  | nodeNoKey (id description : String) (active hasSubjects : Bool) : Subject

/-- One flat record emitted by the flattener, with the four columns the
source selects ({id, desc, active, hasSubjects}; `desc` is the node's
`description`). -/
structure SubjectRecord : Type where
  id : String
  desc : String
  active : Bool
  hasSubjects : Bool
deriving DecidableEq, Repr

/-- The record the flattener builds from a node's fields. -/
def Subject.record : Subject → SubjectRecord
  | .node i d a h _ => ⟨i, d, a, h⟩
  | .nodeNoKey i d a h => ⟨i, d, a, h⟩

/-- Whether the node's `subjects` key is present and maps to the empty
list. -/
def Subject.emptySubjects : Subject → Bool
  | .node _ _ _ _ [] => true
  | _ => false

/-!
The inner json_to_df_dict of utils.desc_to_df, split into the body of
one loop iteration (`flattenOne`: the access to `i['subjects']` and the
append/extend branch) and the loop over the list (`json_to_df_dict`).
`none` is the `KeyError` raised by `i['subjects']` on a node without the
key; it propagates through the whole traversal.
-/
mutual

/-- One loop iteration of json_to_df_dict on the node `i`: reads
`i['subjects']` (KeyError when absent), yields the node's own record when
the children list is empty, and otherwise the flattening of the
children. -/
def flattenOne : Subject → Option (List SubjectRecord)
  | .nodeNoKey _ _ _ _ => none
  | .node i d a h [] => some [⟨i, d, a, h⟩]
  | .node _ _ _ _ (c :: cs) => json_to_df_dict (c :: cs)

/-- The loop of json_to_df_dict over a list of nodes: concatenates the
records produced for each node in order, propagating a KeyError from any
node. -/
def json_to_df_dict : List Subject → Option (List SubjectRecord)
  | [] => some []
  | x :: rest =>
      match flattenOne x, json_to_df_dict rest with
      | some xs, some ys => some (xs ++ ys)
      | _, _ => none

end

/-- utils.desc_to_df: the DataFrame rows are exactly the flat record list
(the frame adds nothing beyond the list). -/
def desc_to_df (l : List Subject) : Option (List SubjectRecord) :=
  json_to_df_dict l

/-! ## Dst.get_data / Dst.get_csv -/

/-- One variable of a table, as one row of the frame returned by
Dst.get_variables: its id and the ids of its allowed values in order. -/
structure TableVar : Type where
  id : String
  values : List String
deriving DecidableEq, Repr

/-- The `variables` argument of Dst.get_data / Dst.get_csv: `None`, a dict
from variable id to the selected value ids (an ordered association list
with distinct keys, as a Python dict), or a value of any other type. -/
inductive VarsArg : Type where
  | noneArg : VarsArg
  | dictArg (entries : List (String × List String)) : VarsArg
  | otherArg (v : PyVal) : VarsArg

/-- The default selection for one table variable:
`[row['values'][0]['id']]`, raising `IndexError` when the variable has no
values. -/
def defaultEntry (v : TableVar) : Except String (String × List String) :=
  match v.values with
  | [] => Except.error "IndexError: list index out of range"
  | x :: _ => Except.ok (v.id, [x])

/-- The id of the first allowed value of a table variable: what the
default branch of Dst.get_data selects (for a variable with no values that
branch raises IndexError instead; the empty string here is never reached
under that hypothesis). -/
def firstValueD (v : TableVar) : String :=
  match v.values with
  | [] => ""
  | x :: _ => x

/-- The args dict of Dst.get_data / Dst.get_csv.  With a dict argument the
defaults are built only for table variables whose id is not among the
caller's keys, and the merge keeps the caller's entries first, in Python
dict insertion order. -/
def get_data_args (vars_arg : VarsArg) (tableVars : List TableVar) :
    Except String (List (String × List String)) :=
  match vars_arg with
  | .noneArg => tableVars.mapM defaultEntry
  | .dictArg entries =>
      ((tableVars.filter fun v => (entries.lookup v.id).isNone).mapM
          defaultEntry).map (entries ++ ·)
  | .otherArg _ =>
      Except.error "ValueError: Variables must be either type None or Dict"

/-- The query-argument part of the bulk-data URL:
ampersand-joined key=comma-joined-values pairs in dict order. -/
def arg_str (args : List (String × List String)) : String :=
  String.intercalate "&" (args.map fun kv =>
    kv.1 ++ "=" ++ String.intercalate "," kv.2)

/-- Dst.get_data up to its GET: resolves the language, resolves the args
dict against the table's variables (assumed already fetched by
Dst.get_variables), and builds the bulk URL with the Semicolon delimiter.
`Except.error` is an exception raised before the bulk GET. -/
def get_data_url (self : Dst) (table_id : String) (vars_arg : VarsArg)
    (lang : Option String) (tableVars : List TableVar) :
    Except String String := do
  let l ← assign_lang self lang
  let args ← get_data_args vars_arg tableVars
  return "http://api.statbank.dk/v1/data/" ++ table_id ++ "/BULK?lang=" ++
    l ++ "&delimiter=Semicolon&" ++ arg_str args

/-- Dst.get_variables up to its GET: the tableinfo URL. -/
def get_variables_url (self : Dst) (table_id : String) (lang : Option String) :
    Except String String := do
  let l ← assign_lang self lang
  return "http://api.statbank.dk/v1/tableinfo/" ++ table_id ++ "?lang=" ++ l

/-- Dst.get_metadata up to its GET: the same tableinfo URL as
Dst.get_variables. -/
def get_metadata_url (self : Dst) (table_id : String) (lang : Option String) :
    Except String String := do
  let l ← assign_lang self lang
  return "http://api.statbank.dk/v1/tableinfo/" ++ table_id ++ "?lang=" ++ l

/-- Externally visible effects of Dst.get_csv, in program order. -/
inductive Event : Type where
  | httpGet (url : String) : Event
  | fileWrite (path : String) : Event
deriving DecidableEq, Repr

/-- Dst.get_csv as a trace of its effects.  `dir_exists` is the value of
`os.path.exists(os.path.dirname(os.path.abspath(os.path.expanduser(path))))`;
`guard_ok url` says whether the response of the GET to `url` passes
`bad_request_wrapper`.  The result pairs the returned value (or raised
exception) with the ordered list of effects performed. -/
def get_csv_trace (self : Dst) (dir_exists : Bool) (guard_ok : String → Bool)
    (path table_id : String) (vars_arg : VarsArg) (lang : Option String)
    (tableVars : List TableVar) : Except String Unit × List Event :=
  match assign_lang self lang with
  | .error e => (.error e, [])
  | .ok l =>
    if !dir_exists then
      (.error "OSError: Directory does not exist", [])
    else
      let info_url := "http://api.statbank.dk/v1/tableinfo/" ++ table_id ++
        "?lang=" ++ l
      if !guard_ok info_url then
        (.error "HTTPError", [.httpGet info_url])
      else
        match get_data_args vars_arg tableVars with
        | .error e => (.error e, [.httpGet info_url])
        | .ok args =>
          let url := "http://api.statbank.dk/v1/data/" ++ table_id ++
            "/BULK?lang=" ++ l ++ "&delimiter=Semicolon&" ++ arg_str args
          if !guard_ok url then
            (.error "HTTPError", [.httpGet info_url, .httpGet url])
          else
            (.ok (), [.httpGet info_url, .httpGet url, .fileWrite path])

end Pydst

namespace Pydst

/-- Claim C4: the URL builder on base https://api.example.org, version v1,
resource tables, empty subpath, and the mapping lang=en,
subjects=[02,05] yields exactly the documented URL: list values are
comma-joined, keys keep mapping order, and the trailing slash of the joined
path is stripped before the query string is appended. -/
theorem construct_url_tables_example :
    construct_url "https://api.example.org" "v1" "tables" ""
      [("lang", .qStr "en"), ("subjects", .qList ["02", "05"])] =
    "https://api.example.org/v1/tables?lang=en&subjects=02,05" := by
  rfl

/-- Claim C1: evaluation at the failing input.  get_subjects of the default
client with the valid subject filter 02 performs its GET against the bare
subjects URL, identical to the unfiltered call: the validated filter is
dropped because the source passes the empty string as the path argument of
construct_url, so the filter is never appended to the path. -/
theorem get_subjects_drops_filter_eval :
    get_subjects_url dstEn (.pyStr "02") none =
      .ok "https://api.statbank.dk/v1/subjects?lang=en&format=JSON" ∧
    get_subjects_url dstEn (.pyStr "02") none =
      get_subjects_url dstEn .pyNone none := by
  exact ⟨rfl, rfl⟩

/-- Claim C2, counterexample: a failing response whose body is empty or not
JSON-decodable does not raise an HTTP-failure error carrying the transport
default reason, as the claim states; the call r.json() raises a JSON decode
error instead, which propagates out of the wrapper. -/
theorem bad_request_wrapper_nonjson_counterexample :
    bad_request_wrapper ⟨false, 404, "Not Found", none⟩ =
      .jsonDecodeError ∧
    bad_request_wrapper ⟨false, 404, "Not Found", none⟩ ≠
      .httpError (.jStr "Not Found") 404 := by
  refine ⟨rfl, fun h => ?_⟩
  exact WrapResult.noConfusion h

/-- Claim C2, amended: on a successful status the wrapper has no effect; on
a failing status with a JSON-object body whose errorTypeCode and message
entries are both truthy it raises an HTTP-failure error whose reason is
exactly the message value; on a failing status with a JSON-object body not
passing that test it raises an HTTP-failure error with the transport-level
default reason; but on a failing status with an empty or non-JSON body the
JSON decode error raised by r.json() propagates instead of an HTTP-failure
error. -/
theorem bad_request_wrapper_characterization (r : HResp) :
    (r.ok = true → bad_request_wrapper r = .noEffect) ∧
    (r.ok = false → r.body = none →
      bad_request_wrapper r = .jsonDecodeError) ∧
    (∀ fields : List (String × JVal), r.ok = false →
      r.body = some (.jObj fields) →
      jTruthy (jGet fields "errorTypeCode") = true →
      jTruthy (jGet fields "message") = true →
      bad_request_wrapper r = .httpError (jGet fields "message") r.status_code) ∧
    (∀ fields : List (String × JVal), r.ok = false →
      r.body = some (.jObj fields) →
      (jTruthy (jGet fields "errorTypeCode") &&
        jTruthy (jGet fields "message")) = false →
      bad_request_wrapper r = .httpError (.jStr r.reason) r.status_code) := by
  obtain ⟨ok, status, reason, body⟩ := r
  refine ⟨?_, ?_, ?_, ?_⟩ <;> intros <;> simp_all [bad_request_wrapper]

/-- Witness for the amended C2 theorem: a 403 response with body
errorTypeCode 1 and message Quota exceeded raises with reason exactly that
message, and a 200 response is left untouched. -/
theorem bad_request_wrapper_characterization_witness :
    bad_request_wrapper ⟨false, 403, "Forbidden",
        some (.jObj [("errorTypeCode", .jNum 1),
                     ("message", .jStr "Quota exceeded")])⟩ =
      .httpError (.jStr "Quota exceeded") 403 ∧
    bad_request_wrapper ⟨true, 200, "OK", none⟩ = .noEffect := by
  constructor
  · exact (bad_request_wrapper_characterization
      ⟨false, 403, "Forbidden",
        some (.jObj [("errorTypeCode", .jNum 1),
                     ("message", .jStr "Quota exceeded")])⟩).2.2.1
      [("errorTypeCode", .jNum 1), ("message", .jStr "Quota exceeded")]
      rfl rfl (by rfl) (by rfl)
  · exact (bad_request_wrapper_characterization ⟨true, 200, "OK", none⟩).1 rfl

/-- Claim C3, counterexample: a node whose subjects key is absent does not
yield a record as the claim states; the flattener hits a KeyError on
i-bracket-subjects and produces no output at all. -/
theorem desc_to_df_absent_key_counterexample :
    desc_to_df [.nodeNoKey "01" "A" true false] = none ∧
    desc_to_df [.nodeNoKey "01" "A" true false] ≠
      some [⟨"01", "A", true, false⟩] := by
  refine ⟨rfl, fun h => Option.noConfusion h⟩

/-- Binding an error in the Except monad yields that error. -/
theorem except_error_bind {α β : Type} (e : String) (f : α → Except String β) :
    (Except.error e >>= f) = Except.error e := rfl

/-- Binding a success in the Except monad applies the continuation. -/
theorem except_ok_bind {α β : Type} (a : α) (f : α → Except String β) :
    (Except.ok a >>= f) = f a := rfl

/-- A raised exception is the error value of the Except monad. -/
theorem except_throw {α : Type} (e : String) :
    (throw e : Except String α) = Except.error e := rfl

/-- A returned value is the success value of the Except monad. -/
theorem except_pure {α : Type} (a : α) :
    (pure a : Except String α) = Except.ok a := rfl

/-- Mapping over an error leaves the error unchanged. -/
theorem except_map_error {α β : Type} (e : String) (f : α → β) :
    (f <$> (Except.error e : Except String α)) = Except.error e := rfl

/-- Mapping over a success applies the function. -/
theorem except_map_ok {α β : Type} (a : α) (f : α → β) :
    (f <$> (Except.ok a : Except String α)) = Except.ok (f a) := rfl

/-- Claim C3, amended: the flattener emits one record per node whose
subjects field is present and empty, in order; a node with a non-empty
subjects field is never itself emitted, only the flattening of its children
followed by the flattening of the remaining nodes; a node whose subjects
field is absent makes the traversal raise KeyError and emit nothing; in
particular on input where every node has an empty subjects field the output
is exactly one record per node, in the same order, with the same fields. -/
theorem desc_to_df_flatten_spec :
    (∀ l : List Subject, (∀ s ∈ l, s.emptySubjects = true) →
      desc_to_df l = some (l.map Subject.record)) ∧
    (∀ (i d : String) (a h : Bool) (c : Subject) (cs rest : List Subject)
        (xs ys : List SubjectRecord),
      json_to_df_dict (c :: cs) = some xs → json_to_df_dict rest = some ys →
      desc_to_df (.node i d a h (c :: cs) :: rest) = some (xs ++ ys)) ∧
    (∀ (i d : String) (a h : Bool) (rest : List Subject)
        (ys : List SubjectRecord),
      json_to_df_dict rest = some ys →
      desc_to_df (.node i d a h [] :: rest) = some (⟨i, d, a, h⟩ :: ys)) ∧
    (∀ (i d : String) (a h : Bool) (rest : List Subject),
      desc_to_df (.nodeNoKey i d a h :: rest) = none) := by
  refine ⟨?_, ?_, ?_, ?_⟩
  · intro l hl
    induction l with
    | nil => rfl
    | cons s rest ih =>
      have hs : s.emptySubjects = true := hl s (by simp)
      have hrest := ih fun x hx => hl x (by simp [hx])
      cases s with
      | nodeNoKey i d a h => simp [Subject.emptySubjects] at hs
      | node i d a h subs =>
        cases subs with
        | nil =>
          simp only [desc_to_df] at hrest ⊢
          simp [json_to_df_dict, flattenOne, hrest, Subject.record]
        | cons c cs => simp [Subject.emptySubjects] at hs
  · intro i d a h c cs rest xs ys hc hrest
    have hstep : desc_to_df (.node i d a h (c :: cs) :: rest) =
        match json_to_df_dict (c :: cs), json_to_df_dict rest with
        | some xs, some ys => some (xs ++ ys)
        | _, _ => none := rfl
    rw [hstep, hc, hrest]
  · intro i d a h rest ys hrest
    simp [desc_to_df, json_to_df_dict, flattenOne, hrest]
  · intro i d a h rest
    simp [desc_to_df, json_to_df_dict, flattenOne]

/-- Witness for the amended C3 theorem: a two-node flat list flattens to
its two records in order, and a parent with one leaf child contributes only
the child's record. -/
theorem desc_to_df_flatten_spec_witness :
    desc_to_df [.node "02" "Population" true true [],
                .node "05" "Living conditions" true true []] =
      some [⟨"02", "Population", true, true⟩,
            ⟨"05", "Living conditions", true, true⟩] ∧
    desc_to_df [.node "1" "parent" true true
                  [.node "11" "child" true false []]] =
      some [⟨"11", "child", true, false⟩] := by
  constructor
  · have h := desc_to_df_flatten_spec.1
      [.node "02" "Population" true true [],
       .node "05" "Living conditions" true true []]
      (by intro s hs; simp at hs; rcases hs with rfl | rfl <;> rfl)
    simpa [Subject.record] using h
  · have h := desc_to_df_flatten_spec.2.1 "1" "parent" true true
      (.node "11" "child" true false []) [] [] [⟨"11", "child", true, false⟩]
      [] rfl rfl
    simpa using h

/-- Claim C5, counterexample: get_tables with the boolean False as the
subjects argument does not fail with a ValueError as the claim states; the
falsy check comes first, so the call proceeds to its HTTP GET against the
unfiltered tables URL. -/
theorem get_tables_falsy_subjects_counterexample :
    get_tables_url dstEn (.pyBool false) (.pyBool false) none =
      .ok "http://api.statbank.dk/v1/tables?lang=en" ∧
    exceptIsError (get_tables_url dstEn (.pyBool false) (.pyBool false) none) =
      false := by
  exact ⟨rfl, rfl⟩

/-- Claim C5, amended: get_subjects raises ValueError before its GET for
every subjects value that is neither a string, a list nor None; get_tables
does so only when the value is additionally truthy, since its falsy test
runs first: a falsy value of any other type (False, 0, an empty container)
is treated like an absent filter and the unfiltered request proceeds. -/
theorem subjects_type_check_amended (self : Dst) (s inact : PyVal)
    (lang : Option String) :
    (s.isStr = false → s.isList = false → s.isNone = false →
      exceptIsError (get_subjects_url self s lang) = true) ∧
    (s.pyTruthy = true → s.isStr = false → s.isList = false →
      exceptIsError (get_tables_url self s inact lang) = true) ∧
    (∀ L : String, s.pyTruthy = false → assign_lang self lang = .ok L →
      tables_url_pre self s lang =
        .ok ("http://api.statbank.dk/v1/tables?lang=" ++ L)) := by
  refine ⟨?_, ?_, ?_⟩
  · intro h1 h2 h3
    cases hassign : assign_lang self lang with
    | error e =>
        simp [get_subjects_url, hassign, except_error_bind, exceptIsError]
    | ok L =>
        cases s <;>
          simp_all [get_subjects_url, hassign, except_ok_bind, except_throw,
            except_map_error, exceptIsError, PyVal.isStr, PyVal.isList,
            PyVal.isNone]
  · intro h1 h2 h3
    cases hassign : assign_lang self lang with
    | error e =>
        simp [get_tables_url, tables_url_pre, hassign, except_error_bind,
          exceptIsError]
    | ok L =>
        cases s <;>
          simp_all [get_tables_url, tables_url_pre, hassign, except_ok_bind,
            except_error_bind, except_throw, except_pure, except_map_error,
            exceptIsError, PyVal.isStr, PyVal.isList, PyVal.pyTruthy]
  · intro L h1 hassign
    cases s <;>
      simp_all [tables_url_pre, hassign, except_ok_bind, PyVal.pyTruthy]

/-- Witness for the amended C5 theorem: the integer 5 makes get_subjects
and get_tables raise before any request, while the boolean False lets
get_tables proceed to the unfiltered tables URL. -/
theorem subjects_type_check_amended_witness :
    exceptIsError (get_subjects_url dstEn (.pyInt 5) none) = true ∧
    exceptIsError (get_tables_url dstEn (.pyInt 5) (.pyBool false) none) =
      true ∧
    tables_url_pre dstEn (.pyBool false) none =
      .ok ("http://api.statbank.dk/v1/tables?lang=" ++ "en") := by
  refine ⟨?_, ?_, ?_⟩
  · exact (subjects_type_check_amended dstEn (.pyInt 5) (.pyBool false)
      none).1 rfl rfl rfl
  · exact (subjects_type_check_amended dstEn (.pyInt 5) (.pyBool false)
      none).2.1 rfl rfl rfl
  · exact (subjects_type_check_amended dstEn (.pyBool false) (.pyBool false)
      none).2.2 "en" rfl rfl

/-- Claim C6, counterexample: the integer 1 is not a boolean, yet
get_tables does not fail with a ValueError as the claim states; the source
compares the flag with Python equality to True, which the integer 1
satisfies, so includeInactive=true is appended and the request proceeds. -/
theorem include_inactive_int_one_counterexample :
    (PyVal.pyInt 1).isBool = false ∧
    get_tables_url dstEn .pyNone (.pyInt 1) none =
      .ok "http://api.statbank.dk/v1/tables?lang=en&includeInactive=true" := by
  exact ⟨rfl, rfl⟩

/-- Claim C6, amended: given the URL built by the subjects stage, a flag
that compares equal to True under Python equality (the booleans aside, also
the integer 1) appends includeInactive=true; the boolean False leaves the
parameter out; and a value that neither equals True nor is a boolean makes
get_tables raise ValueError. -/
theorem include_inactive_amended (self : Dst) (s i : PyVal)
    (lang : Option String) (u : String)
    (hpre : tables_url_pre self s lang = .ok u) :
    (i.pyEqTrue = true →
      get_tables_url self s i lang = .ok (u ++ "&includeInactive=true")) ∧
    (i = .pyBool false → get_tables_url self s i lang = .ok u) ∧
    (i.pyEqTrue = false → i.isBool = false →
      exceptIsError (get_tables_url self s i lang) = true) := by
  refine ⟨?_, ?_, ?_⟩
  · intro h1
    simp [get_tables_url, hpre, except_ok_bind, h1]
  · intro h1
    subst h1
    simp [get_tables_url, hpre, except_ok_bind, PyVal.pyEqTrue, PyVal.isBool]
  · intro h1 h2
    simp [get_tables_url, hpre, except_ok_bind, h1, h2, exceptIsError]

/-- Witness for the amended C6 theorem: with the default client and no
filter, True appends includeInactive=true, False omits it, and the string
yes raises. -/
theorem include_inactive_amended_witness :
    get_tables_url dstEn .pyNone (.pyBool true) none =
      .ok ("http://api.statbank.dk/v1/tables?lang=en" ++
        "&includeInactive=true") ∧
    get_tables_url dstEn .pyNone (.pyBool false) none =
      .ok "http://api.statbank.dk/v1/tables?lang=en" ∧
    exceptIsError (get_tables_url dstEn .pyNone (.pyStr "yes") none) =
      true := by
  refine ⟨?_, ?_, ?_⟩
  · exact (include_inactive_amended dstEn .pyNone (.pyBool true) none
      "http://api.statbank.dk/v1/tables?lang=en" rfl).1 rfl
  · exact (include_inactive_amended dstEn .pyNone (.pyBool false) none
      "http://api.statbank.dk/v1/tables?lang=en" rfl).2.1 rfl
  · exact (include_inactive_amended dstEn .pyNone (.pyStr "yes") none
      "http://api.statbank.dk/v1/tables?lang=en" rfl).2.2 rfl rfl

/-- A key found in the first half of an appended association list is found
in the whole list with the same value. -/
theorem lookup_append_some {β : Type} (l₁ l₂ : List (String × β)) (k : String)
    (v : β) (h : l₁.lookup k = some v) : (l₁ ++ l₂).lookup k = some v := by
  induction l₁ with
  | nil => simp [List.lookup] at h
  | cons x rest ih =>
    obtain ⟨k1, v1⟩ := x
    rw [List.cons_append]
    cases hk : (k == k1) with
    | true =>
        simp only [List.lookup, hk] at h ⊢
        exact h
    | false =>
        simp only [List.lookup, hk] at h ⊢
        exact ih h

/-- A key absent from the first half of an appended association list is
looked up in the second half. -/
theorem lookup_append_none {β : Type} (l₁ l₂ : List (String × β)) (k : String)
    (h : l₁.lookup k = none) : (l₁ ++ l₂).lookup k = l₂.lookup k := by
  induction l₁ with
  | nil => simp
  | cons x rest ih =>
    obtain ⟨k1, v1⟩ := x
    rw [List.cons_append]
    cases hk : (k == k1) with
    | true =>
        simp only [List.lookup, hk] at h
        exact Option.noConfusion h
    | false =>
        simp only [List.lookup, hk] at h ⊢
        exact ih h

/-- When every variable has at least one allowed value, building the
default selections succeeds and pairs each variable id with the
single-element list of its first value id. -/
theorem mapM_defaultEntry_ok (l : List TableVar)
    (h : ∀ v ∈ l, v.values ≠ []) :
    l.mapM defaultEntry =
      Except.ok (l.map fun v => (v.id, [firstValueD v])) := by
  induction l with
  | nil => rfl
  | cons v rest ih =>
    have hv := h v (by simp)
    have hde : defaultEntry v = Except.ok (v.id, [firstValueD v]) := by
      cases hvals : v.values with
      | nil => exact absurd hvals hv
      | cons x xs => simp [defaultEntry, firstValueD, hvals]
    rw [List.mapM_cons, hde, ih fun x hx => h x (by simp [hx])]
    rfl

/-- Looking up a table variable's id among the default entries built for
the variables the caller did not supply: with distinct variable ids the
result is the variable's own default selection. -/
theorem lookup_filtered_defaults (entries : List (String × List String))
    (tv : List TableVar) (v : TableVar) (hv : v ∈ tv)
    (hnd : (tv.map TableVar.id).Nodup)
    (hnone : entries.lookup v.id = none) :
    (((tv.filter fun w => (entries.lookup w.id).isNone).map
        fun w => (w.id, [firstValueD w])).lookup v.id) =
      some [firstValueD v] := by
  induction tv with
  | nil => simp at hv
  | cons w rest ih =>
    rcases List.mem_cons.mp hv with rfl | hvrest
    · have hp : (entries.lookup v.id).isNone = true := by simp [hnone]
      simp only [List.filter_cons, hp, if_pos]
      simp [List.lookup]
    · have hne : w.id ≠ v.id := by
        intro he
        have : w.id ∈ rest.map TableVar.id := he ▸ List.mem_map_of_mem _ hvrest
        exact (List.nodup_cons.mp hnd).1 this
      have ihr := ih hvrest (List.nodup_cons.mp hnd).2
      by_cases hp : (entries.lookup w.id).isNone = true
      · simp only [List.filter_cons, hp, if_pos, List.map_cons]
        have : (v.id == w.id) = false := by
          simp [hne.symm]
        simp [List.lookup, this, ihr]
      · simp only [List.filter_cons, hp, if_neg, Bool.false_eq_true,
          not_false_iff]
        simpa using ihr

/-- Claim C7: with the table's variable list known (each variable having at
least one allowed value and the ids distinct), get_data resolves every
table variable to the caller-supplied selection when the variables dict
supplies it and to the single-element list of the variable's first allowed
value otherwise, sends its GET to the BULK endpoint with the Semicolon
delimiter and the resolved assignments, and raises ValueError when the
variables argument is neither None nor a dict. -/
theorem get_data_resolution (self : Dst) (table_id : String)
    (entries : List (String × List String)) (tv : List TableVar)
    (lang : Option String) (L : String)
    (args : List (String × List String))
    (hassign : assign_lang self lang = .ok L)
    (hvals : ∀ v ∈ tv, v.values ≠ [])
    (hnd : (tv.map TableVar.id).Nodup)
    (hargs : get_data_args (.dictArg entries) tv = .ok args) :
    get_data_url self table_id (.dictArg entries) lang tv =
      .ok ("http://api.statbank.dk/v1/data/" ++ table_id ++ "/BULK?lang=" ++
        L ++ "&delimiter=Semicolon&" ++ arg_str args) ∧
    (∀ v ∈ tv, args.lookup v.id =
      some (match entries.lookup v.id with
            | some sel => sel
            | none => [firstValueD v])) ∧
    (∀ pv : PyVal,
      exceptIsError (get_data_url self table_id (.otherArg pv) lang tv) =
        true) := by
  have hfiltvals : ∀ v ∈ tv.filter fun w => (entries.lookup w.id).isNone,
      v.values ≠ [] := fun v hvf => hvals v (List.mem_of_mem_filter hvf)
  have hdef := mapM_defaultEntry_ok _ hfiltvals
  have hargs2 : get_data_args (.dictArg entries) tv =
      .ok (entries ++ (tv.filter fun w => (entries.lookup w.id).isNone).map
        fun w => (w.id, [firstValueD w])) := by
    have hg : get_data_args (.dictArg entries) tv =
        Except.map (fun x => entries ++ x)
          ((tv.filter fun v => (entries.lookup v.id).isNone).mapM
            defaultEntry) := rfl
    rw [hg, hdef]
    rfl
  have hargseq : args = entries ++
      (tv.filter fun w => (entries.lookup w.id).isNone).map
        fun w => (w.id, [firstValueD w]) := by
    rw [hargs] at hargs2
    exact Except.ok.inj hargs2
  refine ⟨?_, ?_, ?_⟩
  · simp [get_data_url, hassign, except_ok_bind, hargs, except_pure]
  · intro v hv
    cases he : entries.lookup v.id with
    | some sel =>
        rw [hargseq]
        exact lookup_append_some _ _ _ _ he
    | none =>
        rw [hargseq, lookup_append_none _ _ _ he]
        exact lookup_filtered_defaults entries tv v hv hnd he
  · intro pv
    simp [get_data_url, hassign, except_ok_bind, get_data_args,
      except_error_bind, exceptIsError]

/-- Witness for the C7 theorem: a two-variable table where the caller
supplies region and the code defaults time to its first value. -/
theorem get_data_resolution_witness :
    get_data_url dstEn "FOLK1A" (.dictArg [("region", ["000"])]) none
        [⟨"region", ["084", "085"]⟩, ⟨"time", ["2010", "2011"]⟩] =
      .ok ("http://api.statbank.dk/v1/data/" ++ "FOLK1A" ++ "/BULK?lang=" ++
        "en" ++ "&delimiter=Semicolon&" ++
        arg_str [("region", ["000"]), ("time", ["2010"])]) ∧
    [("region", ["000"]), ("time", ["2010"])].lookup "region" =
      some ["000"] ∧
    [("region", ["000"]), ("time", ["2010"])].lookup "time" =
      some ["2010"] ∧
    exceptIsError (get_data_url dstEn "FOLK1A" (.otherArg (.pyStr "x")) none
      [⟨"region", ["084", "085"]⟩, ⟨"time", ["2010", "2011"]⟩]) = true := by
  have h := get_data_resolution dstEn "FOLK1A" [("region", ["000"])]
    [⟨"region", ["084", "085"]⟩, ⟨"time", ["2010", "2011"]⟩] none "en"
    [("region", ["000"]), ("time", ["2010"])] rfl
    (by intro v hv; simp at hv; rcases hv with rfl | rfl <;> simp)
    (by simp) rfl
  refine ⟨h.1, ?_, ?_, h.2.2 (.pyStr "x")⟩
  · exact (h.2.1 ⟨"region", ["084", "085"]⟩ (by simp)).trans (by rfl)
  · exact (h.2.1 ⟨"time", ["2010", "2011"]⟩ (by simp)).trans (by rfl)

/-- Claim C8: the language codes en and da pass validation unchanged;
every other string fails check_lang with ValueError, and constructing the
client with such a default language fails at construction time. -/
theorem check_lang_spec (lang : String) :
    (lang = "en" ∨ lang = "da" → check_lang lang = .ok lang) ∧
    (lang ≠ "en" → lang ≠ "da" →
      exceptIsError (check_lang lang) = true ∧
      exceptIsError (Dst.init lang) = true) := by
  constructor
  · rintro (rfl | rfl) <;> rfl
  · intro h1 h2
    have hmem : ¬ lang ∈ (["da", "en"] : List String) := by
      simp [h1, h2]
    have hcl : exceptIsError (check_lang lang) = true := by
      have hda : isAlphaOnly "da" = true := rfl
      have hen : isAlphaOnly "en" = true := rfl
      unfold check_lang lang_validator
      cases hA : isAlphaOnly lang with
      | false =>
          simp [hA, except_throw, except_error_bind, except_map_error,
            exceptIsError]
      | true =>
          simp [hA, hda, hen, h1, h2, except_throw, except_pure,
            except_ok_bind, except_error_bind, except_map_error,
            except_map_ok, exceptIsError]
    refine ⟨hcl, ?_⟩
    unfold Dst.init
    cases hc : check_lang lang with
    | error e => simp [hc, except_error_bind, exceptIsError]
    | ok l => rw [hc] at hcl; simp [exceptIsError] at hcl

/-- Witness for the C8 theorem: en passes unchanged; fr fails validation
and fails client construction. -/
theorem check_lang_spec_witness :
    check_lang "en" = .ok "en" ∧
    exceptIsError (check_lang "fr") = true ∧
    exceptIsError (Dst.init "fr") = true := by
  refine ⟨(check_lang_spec "en").1 (Or.inl rfl), ?_, ?_⟩
  · exact ((check_lang_spec "fr").2 (by decide) (by decide)).1
  · exact ((check_lang_spec "fr").2 (by decide) (by decide)).2

/-- Claim C9: when the parent directory of the target path does not exist
(and the language resolves), get_csv raises OSError with an empty effect
trace: no HTTP request, not even the variable-metadata request, is issued
and no file is written. -/
theorem get_csv_missing_dir (self : Dst) (guard_ok : String → Bool)
    (path table_id : String) (va : VarsArg) (lang : Option String)
    (tv : List TableVar) (L : String)
    (hassign : assign_lang self lang = .ok L) :
    get_csv_trace self false guard_ok path table_id va lang tv =
      (.error "OSError: Directory does not exist", []) := by
  simp [get_csv_trace, hassign]

/-- Witness for the C9 theorem: the default client with a missing parent
directory raises before any effect. -/
theorem get_csv_missing_dir_witness :
    get_csv_trace dstEn false (fun _ => true) "/missing/out.csv" "FOLK1A"
        .noneArg none [⟨"region", ["084"]⟩] =
      (.error "OSError: Directory does not exist", []) := by
  exact get_csv_missing_dir dstEn (fun _ => true) "/missing/out.csv"
    "FOLK1A" .noneArg none [⟨"region", ["084"]⟩] "en" rfl

/-- Claim C10: an empty-string per-call language override is falsy, so
every operation silently falls back to validating and using the client's
stored default language; the override itself never produces an
invalid-argument error, and each public operation behaves exactly as if no
override had been passed. -/
theorem empty_lang_override_falls_back (d : Dst) :
    assign_lang d (some "") = check_lang d.lang ∧
    assign_lang d (some "") = assign_lang d none ∧
    (d.lang = "en" → assign_lang d (some "") = .ok "en") ∧
    (∀ s : PyVal, get_subjects_url d s (some "") =
      get_subjects_url d s none) ∧
    (∀ s i : PyVal, get_tables_url d s i (some "") =
      get_tables_url d s i none) ∧
    (∀ t : String, get_variables_url d t (some "") =
      get_variables_url d t none) ∧
    (∀ t : String, get_metadata_url d t (some "") =
      get_metadata_url d t none) ∧
    (∀ (t : String) (va : VarsArg) (tv : List TableVar),
      get_data_url d t va (some "") tv = get_data_url d t va none tv) ∧
    (∀ (de : Bool) (gok : String → Bool) (p t : String) (va : VarsArg)
        (tv : List TableVar),
      get_csv_trace d de gok p t va (some "") tv =
        get_csv_trace d de gok p t va none tv) := by
  have key : assign_lang d (some "") = assign_lang d none := rfl
  refine ⟨rfl, key, ?_, ?_, ?_, ?_, ?_, ?_, ?_⟩
  · intro h
    rw [show assign_lang d (some "") = check_lang d.lang from rfl, h]
    rfl
  · intro s
    simp only [get_subjects_url, key]
  · intro s i
    simp only [get_tables_url, tables_url_pre, key]
  · intro t
    simp only [get_variables_url, key]
  · intro t
    simp only [get_metadata_url, key]
  · intro t va tv
    simp only [get_data_url, key]
  · intro de gok p t va tv
    simp only [get_csv_trace, key]

/-- Witness for the C10 theorem: on the default client the empty override
resolves to ok en and get_subjects builds the same URL as with no
override. -/
theorem empty_lang_override_falls_back_witness :
    assign_lang dstEn (some "") = .ok "en" ∧
    get_subjects_url dstEn (.pyStr "02") (some "") =
      get_subjects_url dstEn (.pyStr "02") none := by
  exact ⟨(empty_lang_override_falls_back dstEn).2.2.1 rfl,
    (empty_lang_override_falls_back dstEn).2.2.2.1 (.pyStr "02")⟩

end Pydst
